import Mathlib

/-! Verification of the chapter-navigation prediction engine of the
Gemini-Novel-Reader repository.

The definitions below are a shallow embedding of the TypeScript source:

* `extractChapterIdentifier`, `PatternDetector.learnPattern`,
  `PatternDetector.updatePatternConfidence`, `UrlGenerator.generateNextUrl`,
  `UrlGenerator.generatePrevUrl`, `UrlValidator.validateUrl`
  (src/app/lib/rate-limiter.ts, url-prediction section), and
* `CachePatternStorage.addPattern` / `updatePattern` and
  `ChapterNavigationEngine.predictNavigation` (src/app/lib/pattern-storage.ts).

Floating-point confidence/success-rate arithmetic is modelled over `ℚ`
(0.3 = 3/10, 0.6 = 3/5, 0.05 = 1/20, 0.7 = 7/10, 0.95 = 19/20, 0.5 = 1/2).
JavaScript regular expressions are modelled by a small backtracking matcher
(`Regex`, `mtch`) whose constructs cover exactly the regex features used by
the source: literals (with the `i` flag), the classes `[0-9]`, `[a-z]`,
`[-_]`, `[^/]`, greedy `?`/`+`/`*`, alternation, capture groups, `$` and
`\b`.  `String.match` without the `g` flag is leftmost-first matching,
modelled by `findCaps`.  The WHATWG `new URL` accessors `hostname`,
`pathname` and `search` are modelled for already-normalised http(s) URLs
without userinfo (`urlHostname`, `urlPathname`, `urlSearch`); every URL in
the source's intended domain and every concrete URL used below is of that
shape.  Network and cache effects are modelled by explicit oracle inputs:
the engine-level validator and scraper outcomes live in `Env`, and the
validator-internal HEAD/GET probe outcomes in `ProbeOutcome`.
-/

/-! ## Character classes and the regex matcher -/

/-- Character classes appearing in the source's regexes: `[0-9]`, `[a-z]`
(case-insensitive when the regex carries the `i` flag), `[-_]`-style
enumerations, and the negated class `[^/]`. -/
inductive CClass where
  | digit
  | lower (ci : Bool)
  | oneOf (cs : List Char)
  | notOf (cs : List Char)
deriving DecidableEq

/-- Test of a character class on one character (ASCII, as in the source's
patterns). -/
def CClass.test : CClass → Char → Bool
  | .digit, c => c.isDigit
  | .lower ci, c => ('a' ≤ c && c ≤ 'z') || (ci && ('A' ≤ c && c ≤ 'Z'))
  | .oneOf cs, c => cs.contains c
  | .notOf cs, c => !(cs.contains c)

/-- Abstract syntax of the (small) regex fragment used by the source.
`lit ci s` is a literal string, case-insensitively when `ci` is true;
`many`/`many1` are greedy `*`/`+` over a character class; `opt` is greedy
`?`; `group` is a numbered capture group; `eos` is `$`; `wb` is `\b`. -/
inductive Regex where
  | lit (ci : Bool) (s : List Char)
  | one (cc : CClass)
  | many (cc : CClass)
  | many1 (cc : CClass)
  | seq (r1 r2 : Regex)
  | alt (r1 r2 : Regex)
  | opt (r : Regex)
  | group (idx : Nat) (r : Regex)
  | eos
  | wb
deriving DecidableEq

/-- Captured groups of a match attempt: most recent binding first. -/
abbrev Caps := List (Nat × List Char)

/-- Result of a match attempt: end position and captures, if any. -/
abbrev MatchRes := Option (Nat × Caps)

/-- Continuation used by the backtracking matcher. -/
abbrev MCont := Nat → Caps → MatchRes

/-- Character at an index of a list, if in range. -/
def charAt : List Char → Nat → Option Char
  | [], _ => none
  | c :: _, 0 => some c
  | _ :: rest, n + 1 => charAt rest n

/-- Case-insensitive (when `ci`) character comparison, as the `i` regex
flag behaves on ASCII. -/
def eqCI (ci : Bool) (a b : Char) : Bool :=
  a == b || (ci && (a.toLower == b.toLower))

/-- Literal match of `cs` inside `s` starting at index `i`. -/
def litAt (ci : Bool) (s : List Char) : List Char → Nat → Bool
  | [], _ => true
  | c :: rest, i =>
    match charAt s i with
    | some d => eqCI ci c d && litAt ci s rest (i + 1)
    | none => false

/-- Length of the maximal run of characters of class `cc` at the head of a
list (greedy quantifier measure). -/
def runLen (cc : CClass) : List Char → Nat
  | [] => 0
  | c :: rest => if cc.test c then runLen cc rest + 1 else 0

/-- Word character in the sense of the regex `\b` assertion
(`[A-Za-z0-9_]`). -/
def isWordChar (c : Char) : Bool := c.isAlphanum || c == '_'

/-- Whether the character at index `i` exists and is a word character. -/
def wordAt (s : List Char) (i : Nat) : Bool :=
  match charAt s i with
  | some c => isWordChar c
  | none => false

/-- Greedy backtracking over the length of a `*` run: try consuming `j`,
`j-1`, …, `0` characters, largest first. -/
def tryLens (k : MCont) (i : Nat) (caps : Caps) : Nat → MatchRes
  | 0 => k i caps
  | j + 1 =>
    match k (i + (j + 1)) caps with
    | some r => some r
    | none => tryLens k i caps j

/-- Greedy backtracking over the length of a `+` run: try `j`, …, `1`
characters, largest first, never zero. -/
def tryLens1 (k : MCont) (i : Nat) (caps : Caps) : Nat → MatchRes
  | 0 => none
  | j + 1 =>
    match k (i + (j + 1)) caps with
    | some r => some r
    | none => tryLens1 k i caps j

/-- Backtracking matcher in continuation-passing style; mirrors the
JavaScript engine's leftmost-first, greedy, backtracking semantics on the
fragment of `Regex`.  Captures are threaded functionally, so bindings made
on a failed branch are discarded, as in the source engine. -/
def mtch : Regex → List Char → Nat → MCont → Caps → MatchRes
  | .lit ci cs, s, i, k, caps => if litAt ci s cs i then k (i + cs.length) caps else none
  | .one cc, s, i, k, caps =>
    match charAt s i with
    | some c => if cc.test c then k (i + 1) caps else none
    | none => none
  | .many cc, s, i, k, caps => tryLens k i caps (runLen cc (s.drop i))
  | .many1 cc, s, i, k, caps => tryLens1 k i caps (runLen cc (s.drop i))
  | .seq r1 r2, s, i, k, caps => mtch r1 s i (fun j caps2 => mtch r2 s j k caps2) caps
  | .alt r1 r2, s, i, k, caps =>
    match mtch r1 s i k caps with
    | some r => some r
    | none => mtch r2 s i k caps
  | .opt r, s, i, k, caps =>
    match mtch r s i k caps with
    | some res => some res
    | none => k i caps
  | .group idx r, s, i, k, caps =>
    mtch r s i (fun j caps2 => k j ((idx, (s.drop i).take (j - i)) :: caps2)) caps
  | .eos, s, i, k, caps => if i == s.length then k i caps else none
  | .wb, s, i, k, caps =>
    let before := if i == 0 then false else wordAt s (i - 1)
    if before != wordAt s i then k i caps else none

/-- Leftmost search: try to match at positions `i`, `i+1`, … (`fuel`
bounds the number of start positions). -/
def findCapsFrom (r : Regex) (s : List Char) : Nat → Nat → Option Caps
  | _, 0 => none
  | i, fuel + 1 =>
    match mtch r s i (fun j caps => some (j, caps)) [] with
    | some (_, caps) => some caps
    | none => findCapsFrom r s (i + 1) fuel

/-- Captures of the leftmost match of `r` in `s`, if any; models
`s.match(r)` (no `g` flag). -/
def findCaps (r : Regex) (s : List Char) : Option Caps :=
  findCapsFrom r s 0 (s.length + 1)

/-- Value of capture group `idx`, if the group participated in the match
(most recent binding wins, as in the engine). -/
def capLookup : Caps → Nat → Option (List Char)
  | [], _ => none
  | (j, v) :: rest, idx => if j == idx then some v else capLookup rest idx

/-- First index in `idx`, `idx+1`, … (at most `fuel` indices) whose capture
participated and is non-empty; models
`match.slice(1).find(group => group && group.length > 0)`. -/
def firstFilledFrom (caps : Caps) (idx : Nat) : Nat → Option (List Char)
  | 0 => none
  | fuel + 1 =>
    match capLookup caps idx with
    | some v => if v.isEmpty then firstFilledFrom caps (idx + 1) fuel else some v
    | none => firstFilledFrom caps (idx + 1) fuel

/-- First non-empty capture among groups `1 … groups`. -/
def firstFilled (caps : Caps) (groups : Nat) : Option (List Char) :=
  firstFilledFrom caps 1 groups

/-! ## First-occurrence search and `String.replace` with a string pattern -/

/-- Whether `pat` occurs in `s` starting exactly at index `i`. -/
def listIsPre : List Char → List Char → Bool
  | [], _ => true
  | _ :: _, [] => false
  | a :: as, b :: bs => a == b && listIsPre as bs

/-- Occurrence test of `pat` at position `i` of `s`. -/
def occursAt (pat s : List Char) (i : Nat) : Bool := listIsPre pat (s.drop i)

/-- Index of the first occurrence of `pat` at or after `i` (`fuel` bounds
the number of positions examined). -/
def findOccurFrom (pat s : List Char) : Nat → Nat → Option Nat
  | _, 0 => none
  | i, fuel + 1 => if occursAt pat s i then some i else findOccurFrom pat s (i + 1) fuel

/-- Index of the first occurrence of `pat` in `s`, if any. -/
def findOccur (pat s : List Char) : Option Nat := findOccurFrom pat s 0 (s.length + 1)

/-- List-level model of JavaScript `s.replace(pat, rep)` with a plain
string pattern: replace the first occurrence only, identity when absent. -/
def replaceFirstL (s pat rep : List Char) : List Char :=
  match findOccur pat s with
  | some i => s.take i ++ rep ++ s.drop (i + pat.length)
  | none => s

/-- String-level first-occurrence replacement. -/
def replaceFirst (s pat rep : String) : String :=
  String.mk (replaceFirstL s.data pat.data rep.data)

/-! ## URL accessors (WHATWG `new URL`, restricted shape) -/

/-- Index of the first character of `s` belonging to `stop` (length of `s`
when none does). -/
def idxOfAny (stop : List Char) : List Char → Nat
  | [] => 0
  | c :: rest => if stop.contains c then 0 else idxOfAny stop rest + 1

/-- Characters after the `://` scheme separator, if present. -/
def afterScheme (u : List Char) : Option (List Char) :=
  match findOccur "://".data u with
  | some i => some (u.drop (i + 3))
  | none => none

/-- Model of `new URL(url).hostname` for normalised http(s) URLs without
userinfo: the authority up to any `:port`, lower-cased.  (The source throws
on URLs without a scheme separator; those are outside the modelled domain
and mapped to `""`.) -/
def urlHostname (url : String) : String :=
  match afterScheme url.data with
  | some rest =>
    let auth := rest.take (idxOfAny ['/', '?', '#'] rest)
    String.mk ((auth.take (idxOfAny [':'] auth)).map Char.toLower)
  | none => ""

/-- Model of `new URL(url).pathname` for the same URL shape: from the first
`/` after the authority up to the query or fragment; `/` when absent. -/
def urlPathname (url : String) : String :=
  match afterScheme url.data with
  | some rest =>
    let tail := rest.drop (idxOfAny ['/', '?', '#'] rest)
    let noFrag := tail.take (idxOfAny ['#'] tail)
    let p := noFrag.take (idxOfAny ['?'] noFrag)
    if p.isEmpty then "/" else String.mk p
  | none => ""

/-- Model of `new URL(url).search`: the query including the leading `?`,
with the WHATWG convention that a bare `?` gives the empty search. -/
def urlSearch (url : String) : String :=
  match afterScheme url.data with
  | some rest =>
    let tail := rest.drop (idxOfAny ['/', '?', '#'] rest)
    let noFrag := tail.take (idxOfAny ['#'] tail)
    let q := noFrag.drop (idxOfAny ['?'] noFrag)
    if q = ['?'] then "" else String.mk q
  | none => ""

/-! ## The ordered extraction rule set (rate-limiter.ts lines 227 to 247) -/

/-- Kind of a chapter identifier, `'numeric' | 'alphanumeric'` in the
source. -/
inductive IdKind where
  | numeric
  | alphanumeric
deriving DecidableEq

/-- Result record of `extractChapterIdentifier`. -/
structure ExtractResult where
  identifier : Option String
  type : Option IdKind
  pattern : Option String
deriving DecidableEq

/-- One entry of the source's `patterns` array: compiled regex, rule name,
identifier kind and the number of capture groups of the regex. -/
structure RulePat where
  re : Regex
  name : String
  kind : IdKind
  groups : Nat

/-- Optional `[-_]` separator, the `[-_]?` of the source's patterns. -/
def dashOpt : Regex := .opt (.one (.oneOf ['-', '_']))

/-- Right-nested sequencing of a list of regexes. -/
def seqs : List Regex → Regex
  | [] => .lit false []
  | [r] => r
  | r :: rest => .seq r (seqs rest)

/-- Alternation of case-insensitive word literals, left to right. -/
def wordAlt : List String → Regex
  | [] => .lit false []
  | [w] => .lit true w.data
  | w :: rest => .alt (.lit true w.data) (wordAlt rest)

/-- Regex `chapter[-_]?s?[-_]?([0-9]+)` with flag `i`. -/
def reChapterNumeric : Regex :=
  seqs [.lit true "chapter".data, dashOpt, .opt (.lit true ['s']), dashOpt,
        .group 1 (.many1 .digit)]

/-- Regex `ch[-_]?([0-9]+)` with flag `i`. -/
def reChNumeric : Regex :=
  seqs [.lit true "ch".data, dashOpt, .group 1 (.many1 .digit)]

/-- Regex `\/c(h)?[-_]?([0-9]+)\b` with flag `i`. -/
def reSlashCNumeric : Regex :=
  seqs [.lit false ['/'], .lit true ['c'], .opt (.group 1 (.lit true ['h'])),
        dashOpt, .group 2 (.many1 .digit), .wb]

/-- Regex `\/([0-9]+)\/([^/]*)$` (no flags). -/
def reSlashNumeric : Regex :=
  seqs [.lit false ['/'], .group 1 (.many1 .digit), .lit false ['/'],
        .group 2 (.many (.notOf ['/'])), .eos]

/-- Regex `([0-9]+)\.html$` (no flags). -/
def reHtmlNumeric : Regex :=
  seqs [.group 1 (.many1 .digit), .lit false ".html".data, .eos]

/-- Regex `page[-_]?([0-9]+)` with flag `i`. -/
def rePageNumeric : Regex :=
  seqs [.lit true "page".data, dashOpt, .group 1 (.many1 .digit)]

/-- Regex `part[-_]?([0-9]+)` with flag `i`. -/
def rePartNumeric : Regex :=
  seqs [.lit true "part".data, dashOpt, .group 1 (.many1 .digit)]

/-- Regex `vol[-_]?([0-9]+)` with flag `i`. -/
def reVolNumeric : Regex :=
  seqs [.lit true "vol".data, dashOpt, .group 1 (.many1 .digit)]

/-- Regex `episode[-_]?([0-9]+)` with flag `i`. -/
def reEpisodeNumeric : Regex :=
  seqs [.lit true "episode".data, dashOpt, .group 1 (.many1 .digit)]

/-- Regex `chapter[-_]?([0-9]+[a-z]?)` with flag `i`. -/
def reChapterAlnum : Regex :=
  seqs [.lit true "chapter".data, dashOpt,
        .group 1 (.seq (.many1 .digit) (.opt (.one (.lower true))))]

/-- Regex `ch[-_]?([0-9]+[a-z]?)` with flag `i`. -/
def reChAlnum : Regex :=
  seqs [.lit true "ch".data, dashOpt,
        .group 1 (.seq (.many1 .digit) (.opt (.one (.lower true))))]

/-- Regex `\/c(h)?[-_]?([0-9]+[a-z]?)\b` with flag `i`. -/
def reSlashCAlnum : Regex :=
  seqs [.lit false ['/'], .lit true ['c'], .opt (.group 1 (.lit true ['h'])),
        dashOpt, .group 2 (.seq (.many1 .digit) (.opt (.one (.lower true)))), .wb]

/-- Regex `([0-9]+[a-z]?)\.html$` (no flags, so strictly lower case). -/
def reHtmlAlnum : Regex :=
  seqs [.group 1 (.seq (.many1 .digit) (.opt (.one (.lower false)))),
        .lit false ".html".data, .eos]

/-- Regex `(prologue|epilogue|bonus|extra|special)[-_]?([0-9]*)` with
flag `i`. -/
def reSpecial : Regex :=
  seqs [.group 1 (wordAlt ["prologue", "epilogue", "bonus", "extra", "special"]),
        dashOpt, .group 2 (.many .digit)]

/-- The source's ordered `patterns` array: numeric rules first, then
alphanumeric, then named special chapters; first match wins. -/
def patternRules : List RulePat :=
  [ ⟨reChapterNumeric, "chapter-numeric", .numeric, 1⟩,
    ⟨reChNumeric, "ch-numeric", .numeric, 1⟩,
    ⟨reSlashCNumeric, "slash-c-numeric", .numeric, 2⟩,
    ⟨reSlashNumeric, "slash-numeric", .numeric, 2⟩,
    ⟨reHtmlNumeric, "html-numeric", .numeric, 1⟩,
    ⟨rePageNumeric, "page-numeric", .numeric, 1⟩,
    ⟨rePartNumeric, "part-numeric", .numeric, 1⟩,
    ⟨reVolNumeric, "volume-numeric", .numeric, 1⟩,
    ⟨reEpisodeNumeric, "episode-numeric", .numeric, 1⟩,
    ⟨reChapterAlnum, "chapter-alphanumeric", .alphanumeric, 1⟩,
    ⟨reChAlnum, "ch-alphanumeric", .alphanumeric, 1⟩,
    ⟨reSlashCAlnum, "slash-c-alphanumeric", .alphanumeric, 2⟩,
    ⟨reHtmlAlnum, "html-alphanumeric", .alphanumeric, 1⟩,
    ⟨reSpecial, "special-chapter", .alphanumeric, 2⟩ ]

/-- Loop body of `extractChapterIdentifier`: apply the rules in order; on a
match whose first non-empty capture exists, return it, otherwise continue
with the remaining rules. -/
def applyRules : List RulePat → String → ExtractResult
  | [], _ => ⟨none, none, none⟩
  | r :: rest, path =>
    match findCaps r.re path.data with
    | some caps =>
      match firstFilled caps r.groups with
      | some v => ⟨some (String.mk v), some r.kind, some r.name⟩
      | none => applyRules rest path
    | none => applyRules rest path

/-- Embedding of `extractChapterIdentifier` (rate-limiter.ts lines 218 to
265): match the ordered rule set against `pathname + search`. -/
def extractChapterIdentifier (url : String) : ExtractResult :=
  applyRules patternRules (urlPathname url ++ urlSearch url)

/-! ## parseInt and the alphanumeric identifier arithmetic -/

/-- Leading decimal-digit run of a character list. -/
def leadDigits : List Char → List Char
  | [] => []
  | c :: rest => if c.isDigit then c :: leadDigits rest else []

/-- Numeric value of a digit run. -/
def natOfDigits (ds : List Char) : Nat :=
  ds.foldl (fun acc c => acc * 10 + (c.toNat - '0'.toNat)) 0

/-- Model of JavaScript `parseInt(s, 10)` on the strings arising here
(regex captures: no sign, no leading whitespace): the value of the leading
digit run, `none` (NaN) when there is none. -/
def parseIntDec (s : String) : Option Nat :=
  match leadDigits s.data with
  | [] => none
  | c :: rest => some (natOfDigits (c :: rest))

/-- Regex `([0-9]+)([a-z]?)` with flag `i`, used by
`incrementAlphanumeric` and `decrementAlphanumeric`. -/
def reAlnumParts : Regex :=
  .seq (.group 1 (.many1 .digit)) (.group 2 (.opt (.one (.lower true))))

/-- Destructuring `const [, num, letter] = id.match(/([0-9]+)([a-z]?)/i)`:
the digit part and the (possibly empty) letter part.  On any match group 1
is a non-empty digit run and group 2 participates, so the `getD` defaults
are dead code. -/
def alnumParts (id : String) : Option (List Char × List Char) :=
  match findCaps reAlnumParts id.data with
  | some caps => some ((capLookup caps 1).getD [], (capLookup caps 2).getD [])
  | none => none

/-- Embedding of `UrlGenerator.incrementAlphanumeric` (rate-limiter.ts
lines 362 to 377): with a letter suffix, bump only the letter's character
code; otherwise increment the number.  `number + nextChar` in the source is
JavaScript string concatenation of the parsed number and the character. -/
def incrementAlphanumeric (id : String) : String :=
  match alnumParts id with
  | none => id
  | some (num, letter) =>
    let number := (parseIntDec (String.mk num)).getD 0
    match letter with
    | c :: _ => Nat.repr number ++ String.mk [Char.ofNat (c.toNat + 1)]
    | [] => Nat.repr (number + 1)

/-- Embedding of `UrlGenerator.decrementAlphanumeric` (rate-limiter.ts
lines 379 to 395): with a letter suffix, lower the letter's character code;
otherwise decrement the number, returning `id` unchanged when it is ≤ 1. -/
def decrementAlphanumeric (id : String) : String :=
  match alnumParts id with
  | none => id
  | some (num, letter) =>
    let number := (parseIntDec (String.mk num)).getD 0
    match letter with
    | c :: _ => Nat.repr number ++ String.mk [Char.ofNat (c.toNat - 1)]
    | [] => if number ≤ 1 then id else Nat.repr (number - 1)

/-! ## Pattern model, learner and confidence update -/

/-- The persisted `UrlPattern` record (rate-limiter.ts lines 191 to 199),
with `confidence`/`successRate` over `ℚ` and `lastUsed` a `ℕ` timestamp. -/
structure UrlPattern where
  domain : String
  pattern : String
  exampleUrl : String
  chapterIdentifier : IdKind
  confidence : ℚ
  lastUsed : ℕ
  successRate : ℚ
deriving DecidableEq

/-- Embedding of `PatternDetector.learnPattern` (rate-limiter.ts lines 272
to 291): extract the identifier, template the pathname by replacing the
identifier's first occurrence with the typed placeholder, seed confidence
and success rate at 0.5.  `now` stands for `Date.now()`. -/
def learnPattern (url : String) (now : ℕ) : Option UrlPattern :=
  match extractChapterIdentifier url with
  | ⟨some identifier, some ty, some _⟩ =>
    let templated := replaceFirst (urlPathname url) identifier
        (if ty = .numeric then "{number}" else "{id}")
    some { domain := urlHostname url,
           pattern := templated ++ urlSearch url,
           exampleUrl := url,
           chapterIdentifier := ty,
           confidence := 1/2,
           lastUsed := now,
           successRate := 1/2 }
  | _ => none

/-- EWMA weight `0.3` of `updatePatternConfidence` (rate-limiter.ts line
308). -/
def ewmaWeight : ℚ := 3/10

/-- The success-rate formula of `updatePatternConfidence` (rate-limiter.ts
lines 309 to 310): `(1 − w)·successRate + w·(success ? 1 : 0)`. -/
def ewmaSuccessRate (sr : ℚ) (success : Bool) : ℚ :=
  (1 - ewmaWeight) * sr + ewmaWeight * (if success then 1 else 0)

/-- Embedding of `PatternDetector.updatePatternConfidence` (rate-limiter.ts
lines 294 to 320): find the first stored pattern with the same domain and
template, update its success rate by the EWMA formula, set confidence to
`min(0.95, successRate')` and refresh `lastUsed`; the list is unchanged
when no entry matches. -/
def updatePatternConfidence (pat : UrlPattern) (success : Bool) (now : ℕ) :
    List UrlPattern → List UrlPattern
  | [] => []
  | q :: rest =>
    if q.domain == pat.domain && q.pattern == pat.pattern then
      { q with successRate := ewmaSuccessRate q.successRate success,
               confidence := min (19/20) (ewmaSuccessRate q.successRate success),
               lastUsed := now } :: rest
    else q :: updatePatternConfidence pat success now rest

/-! ## URL generator -/

/-- Embedding of `UrlGenerator.generateNextUrl` (rate-limiter.ts lines 325
to 341).  The `pattern` argument is accepted and, as in the source, never
read: the identifier is re-extracted from the URL itself and its first
textual occurrence in the whole URL string is substituted. -/
def generateNextUrl (url : String) (_p : UrlPattern) : Option String :=
  match extractChapterIdentifier url with
  | ⟨some identifier, some ty, _⟩ =>
    match ty with
    | .numeric =>
      match parseIntDec identifier with
      | none => none
      | some n => some (replaceFirst url identifier (Nat.repr (n + 1)))
    | .alphanumeric =>
      some (replaceFirst url identifier (incrementAlphanumeric identifier))
  | _ => none

/-- Embedding of `UrlGenerator.generatePrevUrl` (rate-limiter.ts lines 343
to 360): numeric identifiers ≤ 1 (and NaN) yield `null`; alphanumeric
identifiers yield `null` when the decrement is a fixed point. -/
def generatePrevUrl (url : String) (_p : UrlPattern) : Option String :=
  match extractChapterIdentifier url with
  | ⟨some identifier, some ty, _⟩ =>
    match ty with
    | .numeric =>
      match parseIntDec identifier with
      | none => none
      | some n =>
        if n ≤ 1 then none
        else some (replaceFirst url identifier (Nat.repr (n - 1)))
    | .alphanumeric =>
      let prevIdentifier := decrementAlphanumeric identifier
      if prevIdentifier = identifier then none
      else some (replaceFirst url identifier prevIdentifier)
  | _ => none

/-! ## Pattern store (CachePatternStorage over its in-memory list) -/

/-- Embedding of `CachePatternStorage.getPattern` (pattern-storage.ts lines
37 to 40): first stored pattern of the domain. -/
def getPattern (ps : List UrlPattern) (domain : String) : Option UrlPattern :=
  ps.find? (fun p => p.domain == domain)

/-- Embedding of `CachePatternStorage.addPattern` (pattern-storage.ts lines
52 to 71): upsert by domain; on an existing domain the new pattern's
fields are kept except `successRate`, which carries over from the existing
record; otherwise the pattern is appended. -/
def addPattern : List UrlPattern → UrlPattern → List UrlPattern
  | [], p => [p]
  | q :: rest, p =>
    if q.domain == p.domain then { p with successRate := q.successRate } :: rest
    else q :: addPattern rest p

/-- Embedding of `CachePatternStorage.updatePattern` (pattern-storage.ts
lines 42 to 50) at the engine's call sites: the engine always passes a
complete record, so the `{ ...existing, ...updates }` merge is replacement
of the first entry of the domain; the list is unchanged when the domain is
absent. -/
def updatePattern : List UrlPattern → String → UrlPattern → List UrlPattern
  | [], _, _ => []
  | q :: rest, domain, u =>
    if q.domain == domain then u :: rest
    else q :: updatePattern rest domain u

/-! ## Navigation engine -/

/-- Scraper outcome pair of `NavigationScraper.scrapeNavigationLinks`
(rate-limiter.ts lines 400 to 437).  That method absorbs every fetch,
cache and parse failure into `{ nextUrl: null, prevUrl: null }`, so its
resolved value is total and is modelled as an oracle in `Env`. -/
structure ScrapeLinks where
  nextUrl : Option String
  prevUrl : Option String
deriving DecidableEq

/-- Oracle environment of one `predictNavigation` call: the resolved
boolean outcome of `UrlValidator.validateUrl` per URL, the resolved link
pair of the scraper fallback per URL, and `Date.now()`. -/
structure Env where
  validate : String → Bool
  scrapeLinks : String → ScrapeLinks
  now : ℕ

/-- The result's `method` field (`'pattern' | 'scraping'`). -/
inductive Method where
  | pattern
  | scraping
deriving DecidableEq

/-- The record returned by `ChapterNavigationEngine.predictNavigation`
(pattern-storage.ts lines 93 to 101). -/
structure PredictionResult where
  nextUrl : Option String
  previousUrl : Option String
  pattern : Option UrlPattern
  confidence : ℚ
  method : Method
  sourceUrl : String
  validated : Bool
deriving DecidableEq

/-- Per-element behaviour of `UrlValidator.validateUrls` (rate-limiter.ts
lines 590 to 595): a null candidate resolves to `false`, otherwise the
validator's outcome for the URL. -/
def validateOpt (env : Env) : Option String → Bool
  | some u => env.validate u
  | none => false

/-- The tier-1 success write (pattern-storage.ts lines 119 to 124): flat
`+0.05` bump of the success rate, both fields capped at 0.95, `lastUsed`
refreshed; note that `confidence` is computed from the OLD success rate
plus 0.05, which coincides with the new success rate. -/
def tier1Update (dp : UrlPattern) (now : ℕ) : UrlPattern :=
  { dp with successRate := min (19/20) (dp.successRate + 1/20),
            lastUsed := now,
            confidence := min (19/20) (dp.successRate + 1/20) }

/-- Tier 1 of `predictNavigation` (pattern-storage.ts lines 110 to 137),
entered with the stored domain pattern `dp`: generate both candidates,
validate both, persist the `tier1Update` write when either validated, and
return with `method = pattern`, the stored pattern and its (pre-update)
confidence, and each URL only if its side validated. -/
def tier1Run (env : Env) (ps : List UrlPattern) (url : String) (dp : UrlPattern) :
    PredictionResult × List UrlPattern :=
  let nextUrl := generateNextUrl url dp
  let prevUrl := generatePrevUrl url dp
  let nextValid := validateOpt env nextUrl
  let prevValid := validateOpt env prevUrl
  let ps2 := if nextValid || prevValid then
      updatePattern ps (urlHostname url) (tier1Update dp env.now)
    else ps
  ({ nextUrl := if nextValid then nextUrl else none,
     previousUrl := if prevValid then prevUrl else none,
     pattern := some dp,
     confidence := dp.confidence,
     method := .pattern,
     sourceUrl := url,
     validated := true }, ps2)

/-- Tier 3 of `predictNavigation` (pattern-storage.ts lines 166 to 178):
return the scraper fallback's pair verbatim with `method = scraping`, fixed
confidence 0.3, no pattern, `validated = true`, store untouched. -/
def scrapeFallback (env : Env) (ps : List UrlPattern) (url : String) :
    PredictionResult × List UrlPattern :=
  ({ nextUrl := (env.scrapeLinks url).nextUrl,
     previousUrl := (env.scrapeLinks url).prevUrl,
     pattern := none,
     confidence := 3/10,
     method := .scraping,
     sourceUrl := url,
     validated := true }, ps)

/-- Tiers 2 and 3 of `predictNavigation` (pattern-storage.ts lines 140 to
178): learn a pattern; if learned and either generated candidate
validates, promote it at 0.7/0.7 via `addPattern` and return it, otherwise
fall back to scraping. -/
def predictTier23 (env : Env) (ps : List UrlPattern) (url : String) :
    PredictionResult × List UrlPattern :=
  match learnPattern url env.now with
  | some lp =>
    let nextUrl := generateNextUrl url lp
    let prevUrl := generatePrevUrl url lp
    let nextValid := validateOpt env nextUrl
    let prevValid := validateOpt env prevUrl
    if nextValid || prevValid then
      let promoted := { lp with confidence := 7/10, successRate := 7/10 }
      ({ nextUrl := if nextValid then nextUrl else none,
         previousUrl := if prevValid then prevUrl else none,
         pattern := some promoted,
         confidence := 7/10,
         method := .pattern,
         sourceUrl := url,
         validated := true }, addPattern ps promoted)
    else scrapeFallback env ps url
  | none => scrapeFallback env ps url

/-- Embedding of `ChapterNavigationEngine.predictNavigation`
(pattern-storage.ts lines 93 to 178): tier 1 runs exactly when an
identifier was extracted, a pattern is stored for the URL's hostname and
its confidence is strictly above 0.6; otherwise control falls through to
the learn-then-scrape tiers.  The pair returned is (result, store after
the call). -/
def predictNavigation (env : Env) (ps : List UrlPattern) (url : String) :
    PredictionResult × List UrlPattern :=
  match extractChapterIdentifier url with
  | ⟨some _, some _, some _⟩ =>
    match getPattern ps (urlHostname url) with
    | some dp =>
      if 3/5 < dp.confidence then tier1Run env ps url dp
      else predictTier23 env ps url
    | none => predictTier23 env ps url
  | _ => predictTier23 env ps url

/-! ## URL validator internals (UrlValidator.validateUrl) -/

/-- Outcome of one network attempt as the source observes it: an HTTP
status, a rejection before the 5 s timer fires, or an abort by the 5 s
timer of the shared `AbortController`. -/
inductive ProbeOutcome where
  | status (code : Nat)
  | netFail
  | timedOut
deriving DecidableEq

/-- The WHATWG `Response.ok` predicate: status in 200–299. -/
def responseOk (code : Nat) : Bool := 200 ≤ code && code < 300

/-- Whether the shared `AbortController`'s signal has been aborted after
the HEAD attempt: exactly when that attempt was ended by the timer. -/
def signalAborted : ProbeOutcome → Bool
  | .timedOut => true
  | _ => false

/-- Resolved value of one `fetch` call: a status when the signal is not
aborted and the network answered; `none` models a rejection (an already
aborted signal rejects immediately). -/
def fetchOutcome (aborted : Bool) (o : ProbeOutcome) : Option Nat :=
  if aborted then none
  else
    match o with
    | .status c => some c
    | .netFail => none
    | .timedOut => none

/-- Embedding of `UrlValidator.validateUrl` (rate-limiter.ts lines 538 to
588): a cached verdict short-circuits; otherwise the HEAD probe's 2xx, 403
or 405 means valid; on a HEAD rejection the code clears the timer and
issues a GET fallback with the SAME controller's signal — which is already
aborted exactly when the HEAD attempt timed out — and only a 2xx there
means valid; every remaining outcome is `false`.  Cache writes do not
affect the returned boolean and are not modelled. -/
def validateUrl (cached : Option Bool) (head fallbackGet : ProbeOutcome) : Bool :=
  match cached with
  | some v => v
  | none =>
    match fetchOutcome false head with
    | some c => responseOk c || c == 405 || c == 403
    | none =>
      match fetchOutcome (signalAborted head) fallbackGet with
      | some c => responseOk c
      | none => false

/-! ## Concrete fixtures used by witnesses and counterexamples -/

/-- Example chapter URL of the spec's end-to-end scenarios. -/
def exUrl : String := "https://site.example/novel/chapter-50"

/-- Example URL whose path ends in `ch-2b`. -/
def ch2bUrl : String := "https://site.example/novel/ch-2b"

/-- Example URL whose path carries only CJK chapter markup. -/
def cjkUrl : String := "https://site.example/第五十章"

/-- Example URL in which the identifier's digit string also occurs in the
hostname, ahead of the matched path occurrence. -/
def hostClashUrl : String := "https://50site.com/chapter-50"

/-- Stored pattern for `site.example` at confidence 0.7. -/
def exPattern : UrlPattern :=
  ⟨"site.example", "/novel/chapter-{number}", exUrl, .numeric, 7/10, 0, 7/10⟩

/-- The same stored pattern at the tier-1 boundary confidence 0.6. -/
def exPatternMid : UrlPattern :=
  { exPattern with confidence := 3/5, successRate := 3/5 }

/-- The same stored pattern at confidence and success rate 0.5. -/
def exPatternLow : UrlPattern :=
  { exPattern with confidence := 1/2, successRate := 1/2 }

/-- Environment in which every candidate URL validates and the scraper
finds nothing. -/
def allValidEnv : Env := ⟨fun _ => true, fun _ => ⟨none, none⟩, 1000⟩

/-- Environment in which no candidate validates and the scraper finds a
next and a previous link. -/
def noValidEnv : Env :=
  ⟨fun _ => false,
   fun _ => ⟨some "https://site.example/scraped-next",
             some "https://site.example/scraped-prev"⟩, 1000⟩

/-- C1, counterexample: on a URL whose path ends in `ch-2b` the extractor
returns `{value: "2", kind: Numeric}` — the numeric rule `ch[-_]?([0-9]+)`
precedes the alphanumeric rules and already matches the digit prefix — not
`{value: "2b", kind: Alphanumeric}` as the claim states. -/
theorem extract_ch2b_refutes_alphanumeric :
    extractChapterIdentifier ch2bUrl =
      ⟨some "2", some .numeric, some "ch-numeric"⟩ ∧
    (extractChapterIdentifier ch2bUrl).identifier ≠ some "2b" ∧
    (extractChapterIdentifier ch2bUrl).type ≠ some .alphanumeric := by
  refine ⟨by decide, by decide, by decide⟩

/-- C1, amended: under the ordered rule set with first match wins and
numeric rules preceding alphanumeric ones, `chapter-50` yields
`{value: "50", kind: Numeric}`; `ch-2b` yields `{value: "2", kind:
Numeric}` because the numeric rule `ch[-_]?([0-9]+)` matches the digit
prefix before any alphanumeric rule is tried; a URL with only CJK chapter
markup and no Latin digits or keywords yields kind None.  (The WHATWG
percent-encoded form of the CJK path also matches no rule: no keyword, no
`/c`-digit, no trailing `digits/…` or `digits.html` shape.) -/
theorem extract_examples_amended :
    extractChapterIdentifier exUrl =
      ⟨some "50", some .numeric, some "chapter-numeric"⟩ ∧
    extractChapterIdentifier ch2bUrl =
      ⟨some "2", some .numeric, some "ch-numeric"⟩ ∧
    extractChapterIdentifier cjkUrl = ⟨none, none, none⟩ := by
  refine ⟨by decide, by decide, by decide⟩

/-- C7: the claim is right and the code has a slip.  On a cache miss where
the HEAD probe is ended by the 5-second timer, the fallback GET is issued
with the same, already-aborted `AbortController` signal (and the timer has
been cleared), so it rejects immediately and `validateUrl` returns `false`
even when the GET would have answered 200 — contradicting the in-code
comment "try GET with timeout" and the specified fallback.  The
non-timeout rejection path does behave as claimed. -/
theorem validateUrl_timeout_fallback_dead :
    validateUrl none .timedOut (.status 200) = false ∧
    responseOk 200 = true ∧
    validateUrl none .netFail (.status 200) = true ∧
    validateUrl none (.status 403) .netFail = true ∧
    validateUrl none (.status 405) .netFail = true ∧
    validateUrl none (.status 404) .netFail = false := by
  refine ⟨rfl, rfl, rfl, rfl, rfl, rfl⟩

/-- C10: URL generation is independent of the stored pattern argument —
the source never reads `pattern` inside `generateNextUrl` or
`generatePrevUrl`; both depend only on the identifier re-extracted from
the URL itself. -/
theorem urlGenerator_ignores_pattern (url : String) (p1 p2 : UrlPattern) :
    generateNextUrl url p1 = generateNextUrl url p2 ∧
    generatePrevUrl url p1 = generatePrevUrl url p2 :=
  ⟨rfl, rfl⟩

/-- C4, counterexample: for `https://50site.com/chapter-50` the matched
identifier is the `50` of the path, but `url.replace(identifier, next)`
rewrites the FIRST textual occurrence of `"50"`, which sits in the
hostname; the produced URL differs from the source URL in the hostname and
still ends in `chapter-50`, so bytes outside the matched identifier
substring change. -/
theorem generateNextUrl_frame_cex :
    extractChapterIdentifier hostClashUrl =
      ⟨some "50", some .numeric, some "chapter-numeric"⟩ ∧
    generateNextUrl hostClashUrl exPattern = some "https://51site.com/chapter-50" ∧
    some "https://51site.com/chapter-50" ≠ some "https://50site.com/chapter-51" := by
  refine ⟨by decide, by decide, by decide⟩


/-! ## Helper lemmas on first-occurrence replacement -/

/-- A list is an occurrence of itself at the head of any extension. -/
theorem listIsPre_append (p r : List Char) : listIsPre p (p ++ r) = true := by
  induction p with
  | nil => rfl
  | cons c cs ih => simp [listIsPre, ih]

/-- Characterisation of the first-occurrence search: if `pat` occurs at
`tgt` and at no earlier position, the search finds `tgt`. -/
theorem findOccurFrom_eq (pat s : List Char) (tgt : Nat) :
    ∀ fuel i, i ≤ tgt → tgt < i + fuel →
      (∀ j, i ≤ j → j < tgt → occursAt pat s j = false) →
      occursAt pat s tgt = true →
      findOccurFrom pat s i fuel = some tgt := by
  intro fuel
  induction fuel with
  | zero => intro i h1 h2 _ _; omega
  | succ f ih =>
    intro i h1 h2 hfalse htrue
    by_cases hi : i = tgt
    · subst hi
      simp [findOccurFrom, htrue]
    · have hne : occursAt pat s i = false := hfalse i le_rfl (by omega)
      simp only [findOccurFrom, hne]
      simp only [Bool.false_eq_true, if_false]
      exact ih (i + 1) (by omega) (by omega)
        (fun j hj1 hj2 => hfalse j (by omega) hj2) htrue

/-- Replacing the first occurrence, when the decomposition
`s = a ++ pat ++ b` marks the first occurrence of `pat`, rewrites exactly
that segment. -/
theorem replaceFirstL_of_first (s pat rep a b : List Char)
    (hs : s = a ++ pat ++ b)
    (hfirst : ∀ j, j < a.length → occursAt pat s j = false) :
    replaceFirstL s pat rep = a ++ rep ++ b := by
  have htrue : occursAt pat s a.length = true := by
    have : s.drop a.length = pat ++ b := by
      rw [hs, List.append_assoc, List.drop_left]
    rw [occursAt, this]
    exact listIsPre_append pat b
  have hlen : a.length ≤ s.length := by
    rw [hs]
    simp [List.length_append]
  have hfind : findOccur pat s = some a.length := by
    unfold findOccur
    exact findOccurFrom_eq pat s a.length (s.length + 1) 0 (by omega) (by omega)
      (fun j _ hj2 => hfirst j hj2) htrue
  have htake : s.take a.length = a := by
    rw [hs, List.append_assoc, List.take_left]
  have hdrop : s.drop (a.length + pat.length) = b := by
    rw [hs, ← List.length_append a pat, List.drop_left]
  simp only [replaceFirstL, hfind]
  rw [htake, hdrop]

/-- `addPattern` on a domain with no stored entry appends the pattern. -/
theorem addPattern_of_fresh_domain (ps : List UrlPattern) (p : UrlPattern)
    (h : ∀ q ∈ ps, q.domain ≠ p.domain) : addPattern ps p = ps ++ [p] := by
  induction ps with
  | nil => rfl
  | cons q rest ih =>
    have hne : (q.domain == p.domain) = false :=
      beq_eq_false_iff_ne.mpr (h q (List.mem_cons_self q rest))
    simp only [addPattern, hne, Bool.false_eq_true, if_false, List.cons_append,
      List.cons.injEq, true_and]
    exact ih (fun r hr => h r (List.mem_cons_of_mem q hr))

/-! ## Helper lemmas on the EWMA update -/

/-- Closed form of `k` successive failure updates: geometric decay with
ratio `1 − w = 7/10`. -/
theorem ewmaIter_eq (k : ℕ) (sr0 : ℚ) :
    (fun sr => ewmaSuccessRate sr false)^[k] sr0 = (7/10)^k * sr0 := by
  induction k with
  | zero => simp
  | succ n ih =>
    rw [Function.iterate_succ_apply', ih]
    unfold ewmaSuccessRate ewmaWeight
    rw [pow_succ]
    norm_num
    ring

/-- One failure update does not increase a non-negative success rate. -/
theorem ewmaStep_le (sr : ℚ) (h : 0 ≤ sr) : ewmaSuccessRate sr false ≤ sr := by
  unfold ewmaSuccessRate ewmaWeight
  norm_num
  linarith

/-! ## Claim theorems and witnesses over concrete rationals -/

section
attribute [local semireducible] Rat.add Rat.mul Rat.inv Rat.sub

/-- The pattern the engine promotes after learning from `exUrl` at time
1000 (confidence and success rate seeded at 0.7). -/
def promotedPat : UrlPattern :=
  ⟨"site.example", "/novel/chapter-{number}", exUrl, .numeric, 7/10, 1000, 7/10⟩

/-- C2, counterexample: a tier-1 prediction from a stored pattern with
confidence 0.7 in which both candidates validate persists
`successRate = min(0.95, 0.7 + 0.05) = 0.75` — the flat `+0.05` bump of
pattern-storage.ts lines 119 to 124 — whereas the §4.2 procedure with
`outcome = true` would give `0.7·0.7 + 0.3 = 0.79`. -/
theorem tier1_update_not_ewma_cex :
    (predictNavigation allValidEnv [exPattern] exUrl).2 =
      [{ exPattern with successRate := 3/4, confidence := 3/4, lastUsed := 1000 }] ∧
    ewmaSuccessRate exPattern.successRate true = 79/100 ∧
    (3/4 : ℚ) ≠ 79/100 := by
  refine ⟨by decide, by decide, by decide⟩

/-- C3, counterexample: with a stored `site.example` pattern at
success rate 0.5 and confidence 0.5 (≤ 0.6, so tier 1 is skipped), the
engine re-learns from `exUrl`, promotes at 0.7/0.7, and `addPattern`'s
merge-on-existing-domain rule keeps the new confidence 0.7 while carrying
over the old success rate 0.5 — so the persisted record violates
`confidence = min(0.95, successRate)`. -/
theorem addPattern_merge_breaks_confidence_cex :
    (predictNavigation allValidEnv [exPatternLow] exUrl).2 =
      [{ promotedPat with successRate := 1/2 }] ∧
    ({ promotedPat with successRate := 1/2 } : UrlPattern).confidence ≠
      min (19/20) ({ promotedPat with successRate := 1/2 } : UrlPattern).successRate := by
  refine ⟨by decide, by decide⟩

/-- C8, counterexample: with a stored pattern above 0.6 confidence and a
validator that rejects every candidate, neither tier yields a validated
URL, yet the engine returns from tier 1 with `method = pattern`, both URLs
null and the stored pattern's confidence 0.7 — not the scraper fallback's
links with `method = Scraping` and confidence 0.3 that the claim
prescribes (the scraper here would have offered a next link). -/
theorem predict_fallback_cex :
    (predictNavigation noValidEnv [exPattern] exUrl).1.method = .pattern ∧
    (predictNavigation noValidEnv [exPattern] exUrl).1.nextUrl = none ∧
    (predictNavigation noValidEnv [exPattern] exUrl).1.confidence = 7/10 ∧
    (noValidEnv.scrapeLinks exUrl).nextUrl = some "https://site.example/scraped-next" ∧
    Method.pattern ≠ Method.scraping ∧ (7/10 : ℚ) ≠ 3/10 := by
  refine ⟨by decide, by decide, by decide, by decide, by decide, by decide⟩

end

/-- URL with a single-digit chapter number whose digit does not occur
earlier in the URL. -/
def chap7Url : String := "https://site.example/novel/chapter-7"

/-- URL of chapter 1 (the 1-indexed lower bound). -/
def chap1Url : String := "https://site.example/novel/chapter-1"

/-- Stored pattern for a different domain. -/
def otherPat : UrlPattern :=
  ⟨"other.example", "/c-{number}", "https://other.example/c-3", .numeric, 7/10, 0, 7/10⟩

/-- The §3 invariant: confidence is derived from the success rate and
capped at 0.95. -/
def confDerived (q : UrlPattern) : Prop :=
  q.confidence = min (19/20) q.successRate

section
attribute [local semireducible] Rat.add Rat.mul Rat.inv Rat.sub

/-- C6: for a URL whose extracted identifier is numeric with value `n`,
`generatePrevUrl` returns `null` when `n ≤ 1` (chapters are 1-indexed) and
otherwise the URL with the identifier string's first occurrence replaced
by `n − 1` (the source's substitution primitive; see the C4 theorems for
the first-occurrence caveat). -/
theorem generatePrevUrl_boundary (url id : String) (pq : Option String)
    (p : UrlPattern) (n : ℕ)
    (hex : extractChapterIdentifier url = ⟨some id, some .numeric, pq⟩)
    (hn : parseIntDec id = some n) :
    (n ≤ 1 → generatePrevUrl url p = none) ∧
    (2 ≤ n → generatePrevUrl url p = some (replaceFirst url id (Nat.repr (n - 1)))) := by
  constructor <;> intro h
  · simp only [generatePrevUrl, hex, hn]
    rw [if_pos h]
  · simp only [generatePrevUrl, hex, hn]
    rw [if_neg (by omega)]

/-- C6, witness: `previous` of chapter 50 is chapter 49, and `previous` of
chapter 1 is `null`. -/
theorem generatePrevUrl_boundary_witness :
    generatePrevUrl exUrl exPattern = some "https://site.example/novel/chapter-49" ∧
    generatePrevUrl chap1Url exPattern = none := by
  constructor
  · exact ((generatePrevUrl_boundary exUrl "50" (some "chapter-numeric") exPattern 50
      (by decide) (by decide)).2 (by norm_num)).trans (by decide)
  · exact (generatePrevUrl_boundary chap1Url "1" (some "chapter-numeric") exPattern 1
      (by decide) (by decide)).1 (by norm_num)

/-- C4, amended: for a URL whose extracted identifier is numeric with
value `n`, `generateNextUrl` replaces the FIRST textual occurrence of the
identifier string in the whole URL by `n + 1`; when that first occurrence
is the matched identifier substring (the digit string occurs nowhere
earlier in the URL), every other byte is unchanged — in general the first
occurrence can precede the matched one (for instance inside the hostname),
as the counterexample shows. -/
theorem generateNextUrl_first_occurrence (url id : String) (pq : Option String)
    (p : UrlPattern) (n : ℕ)
    (hex : extractChapterIdentifier url = ⟨some id, some .numeric, pq⟩)
    (hn : parseIntDec id = some n) :
    generateNextUrl url p = some (replaceFirst url id (Nat.repr (n + 1))) ∧
    (∀ a b : List Char, url.data = a ++ id.data ++ b →
      (∀ j, j < a.length → occursAt id.data url.data j = false) →
      (replaceFirst url id (Nat.repr (n + 1))).data =
        a ++ (Nat.repr (n + 1)).data ++ b) := by
  constructor
  · simp only [generateNextUrl, hex, hn]
  · intro a b hsplit hfirst
    exact replaceFirstL_of_first url.data id.data (Nat.repr (n + 1)).data a b hsplit hfirst

/-- C4, witness: `next` of chapter 7 is chapter 8, and since `7` occurs
nowhere earlier in the URL, only the identifier substring changes. -/
theorem generateNextUrl_first_occurrence_witness :
    generateNextUrl chap7Url exPattern = some "https://site.example/novel/chapter-8" ∧
    ("https://site.example/novel/chapter-8" : String).data =
      "https://site.example/novel/chapter-".data ++ (Nat.repr 8).data ++ [] := by
  have h := generateNextUrl_first_occurrence chap7Url "7" (some "chapter-numeric")
    exPattern 7 (by decide) (by decide)
  constructor
  · exact h.1.trans (by decide)
  · have h2 := h.2 "https://site.example/novel/chapter-".data [] (by decide) (by decide)
    have h3 : replaceFirst chap7Url "7" (Nat.repr (7 + 1)) =
        "https://site.example/novel/chapter-8" := by decide
    rw [← h3]
    exact h2

end

section
attribute [local semireducible] Rat.add Rat.mul Rat.inv Rat.sub

/-- C5: routing of `predictNavigation`.  Tier 1 (skip-learning use of the
stored domain pattern) runs exactly when an identifier was extracted, a
pattern is stored for the hostname and its confidence is strictly greater
than 0.6; with no identifier, no stored pattern, or confidence ≤ 0.6 —
including the boundary value exactly 0.6 — control falls through to the
learn-then-scrape tiers `predictTier23`.  Tier 1 returns `method =
pattern` with the stored pattern and its confidence. -/
theorem predictNavigation_tier1_boundary (env : Env) (ps : List UrlPattern) (url : String) :
    ((extractChapterIdentifier url).identifier = none →
      predictNavigation env ps url = predictTier23 env ps url) ∧
    (getPattern ps (urlHostname url) = none →
      predictNavigation env ps url = predictTier23 env ps url) ∧
    (∀ (id : String) (ty : IdKind) (pn : String) (dp : UrlPattern),
      extractChapterIdentifier url = ⟨some id, some ty, some pn⟩ →
      getPattern ps (urlHostname url) = some dp →
      ((3/5 < dp.confidence →
          predictNavigation env ps url = tier1Run env ps url dp ∧
          (tier1Run env ps url dp).1.method = .pattern ∧
          (tier1Run env ps url dp).1.pattern = some dp ∧
          (tier1Run env ps url dp).1.confidence = dp.confidence) ∧
       (dp.confidence ≤ 3/5 →
          predictNavigation env ps url = predictTier23 env ps url))) := by
  refine ⟨?_, ?_, ?_⟩
  · intro h
    rcases hE : extractChapterIdentifier url with ⟨i, t, pq⟩
    rw [hE] at h
    simp only at h
    subst h
    simp only [predictNavigation, hE]
  · intro h
    rcases hE : extractChapterIdentifier url with ⟨i, t, pq⟩
    rcases i with _ | a
    · simp only [predictNavigation, hE]
    · rcases t with _ | b
      · simp only [predictNavigation, hE]
      · rcases pq with _ | c
        · simp only [predictNavigation, hE]
        · simp only [predictNavigation, hE, h]
  · intro id ty pn dp hex hdp
    constructor
    · intro hconf
      refine ⟨?_, rfl, rfl, rfl⟩
      simp only [predictNavigation, hex, hdp]
      rw [if_pos hconf]
    · intro hle
      simp only [predictNavigation, hex, hdp]
      rw [if_neg (not_lt.mpr hle)]

/-- C5, witness: at confidence exactly 0.6 the stored pattern is not used;
the engine falls through, re-learns, and the result carries the freshly
promoted pattern at confidence 0.7, not the stored 0.6. -/
theorem predictNavigation_tier1_boundary_witness :
    predictNavigation allValidEnv [exPatternMid] exUrl =
      predictTier23 allValidEnv [exPatternMid] exUrl ∧
    (predictNavigation allValidEnv [exPatternMid] exUrl).1.confidence = 7/10 ∧
    exPatternMid.confidence = 3/5 := by
  refine ⟨?_, by decide, by decide⟩
  exact ((predictNavigation_tier1_boundary allValidEnv [exPatternMid] exUrl).2.2
    "50" .numeric "chapter-numeric" exPatternMid (by decide) (by decide)).2 (by decide)

/-- C2, amended: when a stored pattern with confidence > 0.6 is used for a
tier-1 prediction and at least one generated candidate validates, the
pattern persisted back is NOT the §4.2 EWMA update; it is the flat-bump
write `tier1Update`: `successRate' = confidence' = min(0.95, successRate +
0.05)` with `lastUsed` refreshed to the call time. -/
theorem tier1_success_update_rule (env : Env) (ps : List UrlPattern)
    (url id pn : String) (ty : IdKind) (dp : UrlPattern)
    (hex : extractChapterIdentifier url = ⟨some id, some ty, some pn⟩)
    (hdp : getPattern ps (urlHostname url) = some dp)
    (hconf : 3/5 < dp.confidence)
    (hvalid : validateOpt env (generateNextUrl url dp) = true ∨
              validateOpt env (generatePrevUrl url dp) = true) :
    (predictNavigation env ps url).2 =
      updatePattern ps (urlHostname url) (tier1Update dp env.now) ∧
    (tier1Update dp env.now).successRate = min (19/20) (dp.successRate + 1/20) ∧
    (tier1Update dp env.now).confidence = min (19/20) (dp.successRate + 1/20) ∧
    (tier1Update dp env.now).lastUsed = env.now := by
  refine ⟨?_, rfl, rfl, rfl⟩
  simp only [predictNavigation, hex, hdp]
  rw [if_pos hconf]
  have hor : (validateOpt env (generateNextUrl url dp) ||
      validateOpt env (generatePrevUrl url dp)) = true := by
    rcases hvalid with h | h <;> simp [h]
  simp only [tier1Run, hor, if_true]

/-- C2, witness: concrete tier-1 success run — the stored 0.7/0.7 pattern
is persisted as 0.75/0.75 with `lastUsed` refreshed. -/
theorem tier1_success_update_rule_witness :
    (predictNavigation allValidEnv [exPattern] exUrl).2 =
      [{ exPattern with successRate := 3/4, confidence := 3/4, lastUsed := 1000 }] := by
  have h := tier1_success_update_rule allValidEnv [exPattern] exUrl "50"
    "chapter-numeric" .numeric exPattern (by decide) (by decide) (by decide)
    (Or.inl (by decide))
  exact h.1.trans (by decide)

end

section
attribute [local semireducible] Rat.add Rat.mul Rat.inv Rat.sub

/-- C8, amended: `predictNavigation` is a total function into
`PredictionResult × store` (failures of the validator and scraper are
absorbed by their oracles into `false` / null links, never raised).  When
tier 1 is not entered (no learned pattern, or a learned pattern none of
whose candidates validates) the engine returns the scraper fallback's
links verbatim with `method = Scraping`, fixed confidence 0.3, `validated
= true` and `pattern = null`, leaving the store unchanged; when tier 1 IS
entered and neither candidate validates, it instead returns `method =
Pattern` with both URLs null and the stored pattern's confidence, also
leaving the store unchanged. -/
theorem predict_fallback_behavior (env : Env) (ps : List UrlPattern) (url : String) :
    (learnPattern url env.now = none →
      predictTier23 env ps url =
        ({ nextUrl := (env.scrapeLinks url).nextUrl,
           previousUrl := (env.scrapeLinks url).prevUrl,
           pattern := none, confidence := 3/10, method := .scraping,
           sourceUrl := url, validated := true }, ps)) ∧
    (∀ lp, learnPattern url env.now = some lp →
      validateOpt env (generateNextUrl url lp) = false →
      validateOpt env (generatePrevUrl url lp) = false →
      predictTier23 env ps url =
        ({ nextUrl := (env.scrapeLinks url).nextUrl,
           previousUrl := (env.scrapeLinks url).prevUrl,
           pattern := none, confidence := 3/10, method := .scraping,
           sourceUrl := url, validated := true }, ps)) ∧
    (∀ (id : String) (ty : IdKind) (pn : String) (dp : UrlPattern),
      extractChapterIdentifier url = ⟨some id, some ty, some pn⟩ →
      getPattern ps (urlHostname url) = some dp →
      3/5 < dp.confidence →
      validateOpt env (generateNextUrl url dp) = false →
      validateOpt env (generatePrevUrl url dp) = false →
      predictNavigation env ps url =
        ({ nextUrl := none, previousUrl := none, pattern := some dp,
           confidence := dp.confidence, method := .pattern, sourceUrl := url,
           validated := true }, ps)) := by
  refine ⟨?_, ?_, ?_⟩
  · intro h
    simp only [predictTier23, h, scrapeFallback]
  · intro lp hlp hn hp
    simp only [predictTier23, hlp, hn, hp, Bool.or_false, Bool.false_eq_true,
      if_false, scrapeFallback]
  · intro id ty pn dp hex hdp hconf hn hp
    simp only [predictNavigation, hex, hdp]
    rw [if_pos hconf]
    simp only [tier1Run, hn, hp, Bool.or_false, Bool.false_eq_true, if_false]

/-- C8, witness: a URL with only CJK markup learns no pattern, so the
scraper fallback's links are returned verbatim at confidence 0.3 with an
unchanged (empty) store. -/
theorem predict_fallback_behavior_witness :
    predictTier23 noValidEnv [] cjkUrl =
      ({ nextUrl := some "https://site.example/scraped-next",
         previousUrl := some "https://site.example/scraped-prev",
         pattern := none, confidence := 3/10, method := .scraping,
         sourceUrl := cjkUrl, validated := true }, []) := by
  exact ((predict_fallback_behavior noValidEnv [] cjkUrl).1 (by decide)).trans (by decide)

/-- C3, amended: confidence stays capped at 0.95 and equals
`min(0.95, successRate)` after the tier-1 success write and after
promotion of a learned pattern to a FRESH domain, but `addPattern`'s
merge-on-existing-domain rule keeps the newly learned confidence while
carrying over the stored success rate, so the derivation invariant is not
preserved by that write (see the counterexample); on a fresh domain,
`addPattern` appends and preserves the invariant for every stored entry. -/
theorem confidence_invariant_writes :
    (∀ (dp : UrlPattern) (now : ℕ), confDerived (tier1Update dp now)) ∧
    (∀ (ps : List UrlPattern) (p : UrlPattern),
      (∀ q ∈ ps, q.domain ≠ p.domain) → addPattern ps p = ps ++ [p]) ∧
    (∀ (ps : List UrlPattern) (p : UrlPattern),
      (∀ q ∈ ps, q.domain ≠ p.domain) → (∀ q ∈ ps, confDerived q) →
      confDerived p → ∀ q ∈ addPattern ps p, confDerived q) ∧
    (∀ lp : UrlPattern,
      confDerived { lp with confidence := 7/10, successRate := 7/10 }) := by
  refine ⟨?_, ?_, ?_, ?_⟩
  · intro dp now
    unfold confDerived tier1Update
    simp only
    rw [← min_assoc, min_self]
  · intro ps p h
    exact addPattern_of_fresh_domain ps p h
  · intro ps p hdom hinv hp q hq
    rw [addPattern_of_fresh_domain ps p hdom] at hq
    rcases List.mem_append.mp hq with hin | hin
    · exact hinv q hin
    · rw [List.mem_singleton.mp hin]
      exact hp
  · intro lp
    unfold confDerived
    simp only
    norm_num

/-- C3, witness: the tier-1 write on the 0.7/0.7 pattern satisfies the
derivation invariant, and adding a pattern for a domain not yet stored
appends it. -/
theorem confidence_invariant_writes_witness :
    confDerived (tier1Update exPattern 5) ∧
    addPattern [exPattern] otherPat = [exPattern, otherPat] := by
  refine ⟨confidence_invariant_writes.1 exPattern 5, ?_⟩
  exact confidence_invariant_writes.2.1 [exPattern] otherPat (by decide)

/-- C9: under the EWMA update with weight 0.3, `k` consecutive failures
scale the success rate by `(1 − w)^k = (7/10)^k`; for a non-negative
starting value the iterates are monotonically non-increasing, and so are
the derived confidences `min(0.95, ·)`; and `updatePatternConfidence`
performs exactly one `ewmaSuccessRate` step on the matched stored
pattern. -/
theorem ewma_failure_decay (sr0 : ℚ) (h0 : 0 ≤ sr0) (k : ℕ) :
    (fun sr => ewmaSuccessRate sr false)^[k] sr0 = (7/10)^k * sr0 ∧
    (fun sr => ewmaSuccessRate sr false)^[k + 1] sr0 ≤
      (fun sr => ewmaSuccessRate sr false)^[k] sr0 ∧
    min (19/20) ((fun sr => ewmaSuccessRate sr false)^[k + 1] sr0) ≤
      min (19/20) ((fun sr => ewmaSuccessRate sr false)^[k] sr0) ∧
    (∀ (q : UrlPattern) (now : ℕ),
      updatePatternConfidence q false now [q] =
        [{ q with successRate := ewmaSuccessRate q.successRate false,
                  confidence := min (19/20) (ewmaSuccessRate q.successRate false),
                  lastUsed := now }]) := by
  have hiter := ewmaIter_eq k sr0
  have hnn : 0 ≤ (fun sr => ewmaSuccessRate sr false)^[k] sr0 := by
    rw [hiter]
    have : (0:ℚ) ≤ (7/10)^k := pow_nonneg (by norm_num) k
    positivity
  have hle : (fun sr => ewmaSuccessRate sr false)^[k + 1] sr0 ≤
      (fun sr => ewmaSuccessRate sr false)^[k] sr0 := by
    rw [Function.iterate_succ_apply']
    exact ewmaStep_le _ hnn
  refine ⟨hiter, hle, min_le_min le_rfl hle, ?_⟩
  intro q now
  simp [updatePatternConfidence]

/-- C9, witness: from 1/2, two consecutive failures leave
`(7/10)^2 · 1/2 = 49/200`, below the single-failure value 7/20. -/
theorem ewma_failure_decay_witness :
    (fun sr => ewmaSuccessRate sr false)^[2] (1/2) = 49/200 ∧
    (fun sr => ewmaSuccessRate sr false)^[2] (1/2) ≤
      (fun sr => ewmaSuccessRate sr false)^[1] (1/2) := by
  have h := ewma_failure_decay (1/2) (by norm_num) 1
  refine ⟨(ewma_failure_decay (1/2) (by norm_num) 2).1.trans (by norm_num), h.2.1⟩

end
